import Mathlib

set_option maxRecDepth 20000

unseal Rat.mul Rat.inv Rat.add Rat.sub Nat.gcd

/-! Shallow embedding of the ASE scene-file parser (code/ASEParser.cpp).

The source walks a NUL-terminated character buffer with a raw pointer
cursor.  We model the cursor as the remaining list of characters: the end
of the list is the NUL terminator.  Machine unsigned ints are modelled as
Nat with explicit reduction mod 2^32 where the source can wrap.  `float`
values are modelled as exact rationals; the external numeric conversion
facility (fast_atof.h) and the character classification helpers are
outside src/ and are modelled from the spec where noted. -/

namespace ASE

/-- The NUL terminator: reading at or past the end of the buffer yields it. -/
def NULC : Char := Char.ofNat 0

/-- Current character under the cursor (`*m_szFile`); NUL at the end of input. -/
def peekc : List Char → Char
  | [] => NULC
  | c :: _ => c

/-- Modelled from the spec: the line-terminator predicate of the external
character-classification helpers (ParsingUtils.h is outside src/); the
terminator NUL also satisfies it, so end of input counts as a line end. -/
def IsLineEnd (c : Char) : Bool := c = '\r' || c = '\n' || c = NULC

/-- Modelled from the spec: space/tab classification (ParsingUtils.h is outside src/). -/
def IsSpace (c : Char) : Bool := c = ' ' || c = '\t'

/-- Modelled from the spec: "is whitespace or line terminator" predicate
(ParsingUtils.h is outside src/). -/
def IsSpaceOrNewLine (c : Char) : Bool := IsSpace c || IsLineEnd c

/-- Modelled from the spec: the SkipSpaces combinator (outside src/): skip a
run of spaces/tabs, return the resume position and false iff the character
it stops on is a line terminator (including the end of input). -/
def SkipSpaces : List Char → List Char × Bool
  | [] => ([], false)
  | c :: r => if IsSpace c then SkipSpaces r else (c :: r, !IsLineEnd c)

/-- Modelled from the spec: the SkipSpacesAndLineEnd combinator (outside
src/): skip spaces, tabs and line terminators, return false iff it stopped
at the end of input. -/
def SkipSpacesAndLineEnd : List Char → List Char × Bool
  | [] => ([], false)
  | c :: r =>
    if IsSpace c || c = '\r' || c = '\n' then SkipSpacesAndLineEnd r
    else (c :: r, true)

/-- Decimal digit test used by the modelled numeric facility. -/
def isDigit (c : Char) : Bool := '0' ≤ c && c ≤ '9'

/-- Modelled from the spec: the unsigned decimal parser strtol10 of the
numeric-text facility (fast_atof.h is outside src/): consume a run of
digits accumulating `value*10 + digit` in an unsigned 32-bit word; a
non-digit start yields 0 with an unmoved cursor. -/
def strtol10Aux : List Char → Nat → Nat × List Char
  | [], acc => (acc, [])
  | c :: r, acc =>
    if isDigit c then strtol10Aux r ((acc * 10 + (c.toNat - '0'.toNat)) % 4294967296)
    else (acc, c :: r)

/-- Entry point of the modelled strtol10. -/
def strtol10 (l : List Char) : Nat × List Char := strtol10Aux l 0

/-- Digit-run helper for the modelled float parser: value, digit count, rest. -/
def digitsAux : List Char → Nat → Nat → Nat × Nat × List Char
  | [], acc, k => (acc, k, [])
  | c :: r, acc, k =>
    if isDigit c then digitsAux r (acc * 10 + (c.toNat - '0'.toNat)) (k + 1)
    else (acc, k, c :: r)

/-- Exponent clause of the modelled float parser. -/
def applyExp (v : ℚ) (r : List Char) : ℚ × List Char :=
  let sr : Bool × List Char :=
    match r with
    | '-' :: t => (true, t)
    | '+' :: t => (false, t)
    | _ => (false, r)
  let (e, _, r2) := digitsAux sr.2 0 0
  (if sr.1 then v / 10 ^ e else v * 10 ^ e, r2)

/-- Modelled from the spec: the floating-point parser fast_atof_move of the
numeric-text facility (fast_atof.h is outside src/), over exact rationals:
optional sign, integer digits, optional fraction, optional exponent;
returns the value and the resume position. -/
def fast_atof_move (l : List Char) : ℚ × List Char :=
  let sl : Bool × List Char :=
    match l with
    | '-' :: r => (true, r)
    | '+' :: r => (false, r)
    | _ => (false, l)
  let (ip, _, l2) := digitsAux sl.2 0 0
  let vf : ℚ × List Char :=
    match l2 with
    | '.' :: r =>
      let (fp, k, r2) := digitsAux r 0 0
      ((ip : ℚ) + (fp : ℚ) / 10 ^ k, r2)
    | _ => ((ip : ℚ), l2)
  let ve : ℚ × List Char :=
    match vf.2 with
    | 'e' :: r => applyExp vf.1 r
    | 'E' :: r => applyExp vf.1 r
    | _ => vf
  (if sl.1 then -ve.1 else ve.1, ve.2)

/-- Faithful model of `strncmp(buffer, literal, n) == 0`: compare up to n
characters; positions past the end of either side read as NUL, and the
comparison stops early when both sides reach NUL.  (Note: when n exceeds
the literal length, equality forces a NUL in the buffer at the literal's
length — this matters for the `*MESH_TFACE`/`*MESH_CFACE` checks, which
pass n = 12 for an 11-character literal.) -/
def strncmpEq : List Char → List Char → Nat → Bool
  | _, _, 0 => true
  | s, t, n + 1 =>
    if peekc s ≠ peekc t then false
    else if peekc s = NULC then true
    else strncmpEq s.tail t.tail n

/-- The character at offset n from the cursor (NUL at or past the end). -/
def charAt (l : List Char) (n : Nat) : Char := l.getD n NULC

/-- The keyword test the source uses everywhere:
`0 == strncmp(m_szFile, lit, n) && IsSpaceOrNewLine(*(m_szFile+n))`. -/
def MatchKw (l : List Char) (lit : List Char) (n : Nat) : Bool :=
  strncmpEq l lit n && IsSpaceOrNewLine (charAt l n)

/-- Parser state: the remaining input (`m_szFile`), the line counter
(`iLineNumber`) and the number of LogWarning calls issued so far. -/
structure PState where
  input : List Char
  line : Nat
  warns : Nat
deriving Repr, DecidableEq

/-- `Parser::SkipToNextToken` (lines 103-112): scan forward to the next `*`
or the end of input; no line counting. -/
def SkipToNextTokenL : List Char → List Char × Bool
  | [] => ([], false)
  | c :: r => if c = '*' then (c :: r, true) else SkipToNextTokenL r

/-- `Parser::SkipOpeningBracket` (lines 114-124): skip spaces; fail silently
at a line end; warn and fail when the character is not `{`; otherwise
resynchronize to the next token (which also consumes the brace). -/
def SkipOpeningBracket (st : PState) : PState × Bool :=
  match SkipSpaces st.input with
  | (inp, false) => ({ st with input := inp }, false)
  | (inp, true) =>
    if peekc inp ≠ '{' then ({ st with input := inp, warns := st.warns + 1 }, false)
    else
      let t := SkipToNextTokenL inp
      ({ st with input := t.1 }, true)

/-- Worker for `Parser::SkipSection` (lines 126-155): balance braces from
depth `cnt`; on closing the section consume the brace and resynchronize;
on end of input log a warning and stop. -/
def SkipSectionAux : List Char → Nat → Nat → Nat → PState
  | [], line, warns, _ => { input := [], line := line, warns := warns + 1 }
  | c :: r, line, warns, cnt =>
    if c = '}' then
      if cnt = 1 then
        let t := SkipToNextTokenL r
        { input := t.1, line := line, warns := warns }
      else SkipSectionAux r line warns (cnt - 1)
    else if c = '{' then SkipSectionAux r line warns (cnt + 1)
    else SkipSectionAux r (if IsLineEnd c then line + 1 else line) warns cnt

/-- `Parser::SkipSection`, starting at depth 1. -/
def SkipSection (st : PState) : PState := SkipSectionAux st.input st.line st.warns 1

/-- Scan for the closing double quote of a `*BITMAP` / `*NODE_NAME` path
(lines 592-601 / 694-703).  The source's end-of-input guard compares the
POINTER `sz` itself against the null pointer (`'\0' == sz`), not the
character `*sz`; since `sz` starts at a valid position and only
increments, that guard can never fire, so on a missing quote the scan
runs off the end of the buffer (undefined behavior in C) instead of
raising the fatal error its message documents.  We return `none` for
that overrun, and otherwise the characters before the quote together
with the rest of the input starting at the quote. -/
def FindClosingQuote : List Char → Option (List Char × List Char)
  | [] => none
  | c :: r =>
    if c = '"' then some ([], c :: r)
    else (FindClosingQuote r).map (fun p => (c :: p.1, p.2))

/-- Shared failure bookkeeping of the LV4 value parsers: log a warning,
advance the line counter, leave the cursor at the skip position. -/
def warnLine (st : PState) (inp : List Char) : PState :=
  { input := inp, line := st.line + 1, warns := st.warns + 1 }

/-- `Parser::ParseLV4MeshLong` (lines 1628-1644). -/
def ParseLV4MeshLong (st : PState) : PState × Nat :=
  match SkipSpaces st.input with
  | (inp, false) => (warnLine st inp, 0)
  | (inp, true) =>
    let (v, i2) := strtol10 inp
    let t := SkipToNextTokenL i2
    ({ st with input := t.1 }, v)

/-- `Parser::ParseLV4MeshFloat` (lines 1610-1626). -/
def ParseLV4MeshFloat (st : PState) : PState × ℚ :=
  match SkipSpaces st.input with
  | (inp, false) => (warnLine st inp, 0)
  | (inp, true) =>
    let (v, i2) := fast_atof_move inp
    let t := SkipToNextTokenL i2
    ({ st with input := t.1 }, v)

/-- Vector of three rationals (aiVector3D over exact rationals). -/
structure Vec3 where
  x : ℚ := 0
  y : ℚ := 0
  z : ℚ := 0
deriving Repr, DecidableEq

/-- RGB color triple (aiColor3D over exact rationals). -/
structure Triple where
  r : ℚ := 0
  g : ℚ := 0
  b : ℚ := 0
deriving Repr, DecidableEq

/-- RGBA color (aiColor4D over exact rationals). -/
structure Col4 where
  r : ℚ := 0
  g : ℚ := 0
  b : ℚ := 0
  a : ℚ := 0
deriving Repr, DecidableEq

/-- `Parser::ParseLV4MeshFloatTriple(float*)` (lines 1569-1608): three
floats; a mid-triple whitespace failure warns, zero-fills the remaining
components, bumps the line counter and returns without resynchronizing. -/
def ParseLV4MeshFloatTriple (st : PState) : PState × Vec3 :=
  match SkipSpaces st.input with
  | (inp, false) => (warnLine st inp, {})
  | (inp, true) =>
    let (x, i2) := fast_atof_move inp
    match SkipSpaces i2 with
    | (i3, false) => (warnLine st i3, { x := x })
    | (i3, true) =>
      let (y, i4) := fast_atof_move i3
      match SkipSpaces i4 with
      | (i5, false) => (warnLine st i5, { x := x, y := y })
      | (i5, true) =>
        let (z, i6) := fast_atof_move i5
        let t := SkipToNextTokenL i6
        ({ st with input := t.1 }, { x := x, y := y, z := z })

/-- `Parser::ParseLV4MeshFloatTriple(float*, unsigned&)` (lines 1547-1567):
a leading unsigned index, then the plain float triple. -/
def ParseLV4MeshFloatTripleIdx (st : PState) : PState × Vec3 × Nat :=
  match SkipSpaces st.input with
  | (inp, false) => (warnLine st inp, {}, 0)
  | (inp, true) =>
    let (idx, i2) := strtol10 inp
    let r := ParseLV4MeshFloatTriple { st with input := i2 }
    (r.1, r.2, idx)

/-- `Parser::ParseLV4MeshLongTriple(unsigned*)` (lines 1485-1523): three
unsigned ints; note the trailing resynchronization is
SkipSpacesAndLineEnd, not SkipToNextToken. -/
def ParseLV4MeshLongTriple (st : PState) : PState × (Nat × Nat × Nat) :=
  match SkipSpaces st.input with
  | (inp, false) => (warnLine st inp, (0, 0, 0))
  | (inp, true) =>
    let (a, i2) := strtol10 inp
    match SkipSpaces i2 with
    | (i3, false) => (warnLine st i3, (a, 0, 0))
    | (i3, true) =>
      let (b, i4) := strtol10 i3
      match SkipSpaces i4 with
      | (i5, false) => (warnLine st i5, (a, b, 0))
      | (i5, true) =>
        let (c, i6) := strtol10 i5
        let t := SkipSpacesAndLineEnd i6
        ({ st with input := t.1 }, (a, b, c))

/-- `Parser::ParseLV4MeshLongTriple(unsigned*, unsigned&)` (lines 1525-1545). -/
def ParseLV4MeshLongTripleIdx (st : PState) : PState × (Nat × Nat × Nat) × Nat :=
  match SkipSpaces st.input with
  | (inp, false) => (warnLine st inp, (0, 0, 0), 0)
  | (inp, true) =>
    let (idx, i2) := strtol10 inp
    let r := ParseLV4MeshLongTriple { st with input := i2 }
    (r.1, r.2, idx)

/-- Modelled from the spec: the maximum supported UV channel count
(AI_MAX_NUMBER_OF_TEXTURECOORDS, declared in aiMesh.h which is outside
src/). -/
def AI_MAX_NUMBER_OF_TEXTURECOORDS : Nat := 4

/-- `std::vector::resize` over lists: keep the first n elements, extend
with the default to length n. -/
def resizeList (l : List α) (n : Nat) (d : α) : List α :=
  l.take n ++ List.replicate (n - l.length) d

/-- `ASE::Face` (declared in ASE.h, outside src/; field defaults modelled
from the spec: three vertex indices keyed by slot 0/1/2 for labels A/B/C,
smoothing bit mask 0, material id 0, per-channel UV index triples, a
triple of color indices, and the face's own declared index). -/
structure Face where
  iFace : Nat := 0
  mIndices : List Nat := [0, 0, 0]
  iSmoothGroup : Nat := 0
  iMaterial : Nat := 0
  amUVIndices : List (List Nat) := List.replicate AI_MAX_NUMBER_OF_TEXTURECOORDS [0, 0, 0]
  mColorIndices : List Nat := [0, 0, 0]
deriving Repr, DecidableEq

/-- `ASE::Mesh` (declared in ASE.h, outside src/; field defaults modelled
from the spec: empty geometry arrays, per-channel UV arrays with a
2-component default, no normals, material table index 0). -/
structure Mesh where
  mName : List Char := []
  mTransform : List Vec3 := List.replicate 4 {}
  mPositions : List Vec3 := []
  mFaces : List Face := []
  amTexCoords : List (List Vec3) := List.replicate AI_MAX_NUMBER_OF_TEXTURECOORDS []
  mNumUVComponents : List Nat := List.replicate AI_MAX_NUMBER_OF_TEXTURECOORDS 2
  mVertexColors : List Col4 := []
  mNormals : List Vec3 := []
  iMaterialIndex : Nat := 0
deriving Repr, DecidableEq

/-- `Dot3DSFile` shading modes used by `*MATERIAL_SHADING` (declared
outside src/). -/
inductive Shading where
  | Gouraud
  | Blinn
  | Phong
  | Flat
  | Wire
deriving Repr, DecidableEq

/-- `ASE::Texture` (declared in ASE.h, outside src/; defaults modelled from
the spec: 0 offset, 1 tiling, 0 rotation, 1 blend). -/
structure Texture where
  mMapName : List Char := []
  mOffsetU : ℚ := 0
  mOffsetV : ℚ := 0
  mScaleU : ℚ := 1
  mScaleV : ℚ := 1
  mRotation : ℚ := 0
  mTextureBlend : ℚ := 1
deriving Repr, DecidableEq

/-- Scalar part of `ASE::Material` (ASE.h is outside src/; defaults
modelled from the spec, shading mode Gouraud by default). -/
structure MaterialCore where
  mName : List Char := []
  mAmbient : Triple := {}
  mDiffuse : Triple := {}
  mSpecular : Triple := {}
  mEmissive : Triple := {}
  mTransparency : ℚ := 0
  mSpecularExponent : ℚ := 0
  mShading : Shading := .Gouraud
  sTexDiffuse : Texture := {}
  sTexAmbient : Texture := {}
  sTexSpecular : Texture := {}
  sTexOpacity : Texture := {}
  sTexEmissive : Texture := {}
  sTexBump : Texture := {}
  sTexShininess : Texture := {}
deriving Repr, DecidableEq

/-- `ASE::Material`: the scalar core plus the recursive sub-material array
(`avSubMaterials`). -/
inductive Material where
  | mk (core : MaterialCore) (avSubMaterials : List Material)
deriving Repr

/-- Scalar core of a material. -/
def Material.core : Material → MaterialCore
  | .mk c _ => c

/-- Sub-material array of a material. -/
def Material.avSubMaterials : Material → List Material
  | .mk _ s => s

/-- Update the scalar core of a material. -/
def Material.withCore (f : MaterialCore → MaterialCore) : Material → Material
  | .mk c s => .mk (f c) s

/-- Update the sub-material array of a material. -/
def Material.withSubs (f : List Material → List Material) : Material → Material
  | .mk c s => .mk c (f s)

/-- A default-constructed material. -/
def Material.default : Material := .mk {} []

/-- The parser's owned scene data (`m_vMeshes`, `m_vMaterials`,
`m_clrBackground`, `m_clrAmbient`).  The source marks the two colors as
unset with a NaN sentinel in the red channel; no claim inspects that
sentinel, so the colors are plain rational triples here. -/
structure Scene where
  meshes : List Mesh := []
  materials : List Material := []
  clrBackground : Triple := {}
  clrAmbient : Triple := {}
deriving Repr

/-- Result of a block parser: normal return, fatal error (`LogError`, i.e.
a thrown ImportErrorException), buffer overrun past the NUL terminator
(undefined behavior in the C source, see `FindClosingQuote`), or fuel
exhaustion of the embedding.  The entity being filled through the C++
reference is carried in every outcome. -/
inductive PRes (α : Type) where
  | ok (st : PState) (a : α)
  | err (st : PState) (a : α)
  | oob (st : PState) (a : α)
  | out (st : PState) (a : α)
deriving Repr, DecidableEq

/-- Map the carried entity of a result. -/
def PRes.mapA (f : α → β) : PRes α → PRes β
  | .ok st a => .ok st (f a)
  | .err st a => .err st (f a)
  | .oob st a => .oob st (f a)
  | .out st a => .out st (f a)

/-- The carried entity of a result. -/
def PRes.val : PRes α → α
  | .ok _ a => a
  | .err _ a => a
  | .oob _ a => a
  | .out _ a => a

/-- The parser state of a result. -/
def PRes.stOf : PRes α → PState
  | .ok st _ => st
  | .err st _ => st
  | .oob st _ => st
  | .out st _ => st

/-- Whether a result is a normal return. -/
def PRes.isOk : PRes α → Bool
  | .ok _ _ => true
  | _ => false

/-- Whether a result is a fatal parse error. -/
def PRes.isErr : PRes α → Bool
  | .err _ _ => true
  | _ => false

/-- Whether a result is a buffer overrun. -/
def PRes.isOob : PRes α → Bool
  | .oob _ _ => true
  | _ => false

/-- Result of the `*MESH_FACE` micro-parser: normal return or fatal error
(the BLUBB macro, which raises `LogError`). -/
inductive FaceRes where
  | ok (st : PState) (f : Face)
  | fatalStop (st : PState) (f : Face)
deriving Repr, DecidableEq

/-- Whether the face micro-parser raised a fatal error. -/
def FaceRes.isFatalB : FaceRes → Bool
  | .fatalStop _ _ => true
  | _ => false

/-- The face carried by a face-parser result. -/
def FaceRes.faceOf : FaceRes → Face
  | .ok _ f => f
  | .fatalStop _ f => f

/-- The vertex-reference label switch of `ParseLV4MeshFace` (lines
1400-1414): the one-character case-insensitive A/B/C label names the
output slot; any other character takes the fatal default branch. -/
def labelSlot : Char → Option Nat
  | 'A' => some 0
  | 'a' => some 0
  | 'B' => some 1
  | 'b' => some 1
  | 'C' => some 2
  | 'c' => some 2
  | _ => none

/-- One labelled vertex reference of `ParseLV4MeshFace` (lines 1391-1427):
skip spaces, read the label, require `:`, skip spaces, store the integer
in the slot named by the label; every failure is fatal. -/
def ParseFaceRef (st : PState) (f : Face) : FaceRes :=
  match SkipSpaces st.input with
  | (inp, false) => .fatalStop { st with input := inp } f
  | (inp, true) =>
    match labelSlot (peekc inp) with
    | none => .fatalStop { st with input := inp } f
    | some slot =>
      match SkipSpaces inp.tail with
      | (i2, false) => .fatalStop { st with input := i2 } f
      | (i2, true) =>
        if peekc i2 ≠ ':' then .fatalStop { st with input := i2 } f
        else
          match SkipSpaces i2.tail with
          | (i4, false) => .fatalStop { st with input := i4 } f
          | (i4, true) =>
            let (v, i5) := strtol10 i4
            .ok { st with input := i5 } { f with mIndices := f.mIndices.set slot v }

/-- The forward scan of `ParseLV4MeshFace` used before the optional
`*MESH_SMOOTHING` / `*MESH_MTLID` clauses (lines 1430-1439 and
1463-1472): stop at the next `*` (found) or at a line end / end of input
(not found, line counter bumped). -/
def ScanToStarOrLineEnd : List Char → Nat → List Char × Nat × Bool
  | [], line => ([], line + 1, false)
  | c :: r, line =>
    if c = '*' then (c :: r, line, true)
    else if c = '\r' || c = '\n' then (c :: r, line + 1, false)
    else ScanToStarOrLineEnd r line

/-- The comma-separated smoothing-group loop of `ParseLV4MeshFace` (lines
1449-1459): OR `1 << group` into the 32-bit mask (`1 << g` is modelled as
the Nat shift reduced mod 2^32; shifts of 32 or more are undefined
behavior in the C source).  Terminates on the first non-comma after a
group; fuel bounds the iteration count. -/
def SmoothLoop : Nat → List Char → Nat → List Char × Nat
  | 0, l, mask => (l, mask)
  | fuel + 1, l, mask =>
    let (g, l2) := strtol10 l
    let mask2 := mask ||| ((1 <<< g) % 4294967296)
    let (l3, _) := SkipSpaces l2
    if peekc l3 = ',' then
      let (l4, _) := SkipSpaces l3.tail
      SmoothLoop fuel l4 mask2
    else (l3, mask2)

/-- The `*MESH_MTLID` tail of `ParseLV4MeshFace` (lines 1463-1482): scan
forward; at a line end return; at a `*` check for the keyword, parse the
material id if present, then resynchronize to the next token. -/
def FaceTail (st : PState) (f : Face) : FaceRes :=
  let (i, ln, found) := ScanToStarOrLineEnd st.input st.line
  if !found then .ok { st with input := i, line := ln } f
  else
    let st2 : PState := { st with input := i, line := ln }
    if MatchKw i "*MESH_MTLID".data 11 then
      match SkipSpaces (i.drop 12) with
      | (i3, false) => .fatalStop { st2 with input := i3 } f
      | (i3, true) =>
        let (v, i4) := strtol10 i3
        let t := SkipToNextTokenL i4
        .ok { st2 with input := t.1 } { f with iMaterial := v }
    else
      let t := SkipToNextTokenL i
      .ok { st2 with input := t.1 } f

/-- The optional `*MESH_SMOOTHING` clause plus the `*MESH_MTLID` tail of
`ParseLV4MeshFace` (lines 1430-1482). -/
def FaceSmoothTail (st : PState) (f : Face) : FaceRes :=
  let (i, ln, found) := ScanToStarOrLineEnd st.input st.line
  if !found then .ok { st with input := i, line := ln } f
  else
    let st2 : PState := { st with input := i, line := ln }
    if MatchKw i "*MESH_SMOOTHING".data 15 then
      match SkipSpaces (i.drop 16) with
      | (i3, false) => .fatalStop { st2 with input := i3 } f
      | (i3, true) =>
        let (i4, mask) := SmoothLoop (i3.length + 1) i3 f.iSmoothGroup
        FaceTail { st2 with input := i4 } { f with iSmoothGroup := mask }
    else FaceTail st2 f

/-- `Parser::ParseLV4MeshFace` (lines 1376-1483): face index, `:`, three
labelled vertex references, the ignored edge-visibility scan, then the
optional smoothing-group and material-id clauses. -/
def ParseLV4MeshFace (st : PState) : FaceRes :=
  match SkipSpaces st.input with
  | (inp, false) => .fatalStop { st with input := inp } {}
  | (inp, true) =>
    let (fi, i2) := strtol10 inp
    let f1 : Face := { iFace := fi }
    match SkipSpaces i2 with
    | (i3, false) => .fatalStop { st with input := i3 } f1
    | (i3, true) =>
      if peekc i3 ≠ ':' then .fatalStop { st with input := i3 } f1
      else
        match ParseFaceRef { st with input := i3.tail } f1 with
        | .fatalStop s f => .fatalStop s f
        | .ok s1 f2 =>
          match ParseFaceRef s1 f2 with
          | .fatalStop s f => .fatalStop s f
          | .ok s2 f3 =>
            match ParseFaceRef s2 f3 with
            | .fatalStop s f => .fatalStop s f
            | .ok s3 f4 => FaceSmoothTail s3 f4

/-- The loop skeleton shared verbatim by every block parser of the source
(see e.g. lines 943-959): if the current character is `*`, run the block's
keyword dispatch; then, on `{` increment the depth; on `}` decrement it
and, at depth 0, consume the brace, resynchronize and return; at the end
of input either return normally (`eofTolerant`, the top-level and the
level-1 blocks) or raise the fatal BLUBB error (every deeper block);
otherwise count a crossed line terminator; finally `++m_szFile`
unconditionally — note this increment also runs right after a dispatched
keyword, whose handler leaves the cursor on the next `*`.  The dispatch
receives the remaining fuel for its nested block parsers. -/
def runBlock (dispatch : Nat → PState → L → PRes L) (eofTolerant : Bool) :
    Nat → PState → L → Nat → PRes L
  | 0, st, l, _ => .out st l
  | fuel + 1, st, l, depth =>
    match (if peekc st.input = '*' then dispatch fuel st l else .ok st l) with
    | .err st1 l1 => .err st1 l1
    | .oob st1 l1 => .oob st1 l1
    | .out st1 l1 => .out st1 l1
    | .ok st1 l1 =>
      if peekc st1.input = '{' then
        runBlock dispatch eofTolerant fuel { st1 with input := st1.input.tail } l1 (depth + 1)
      else if peekc st1.input = '}' then
        if depth = 1 then
          let t := SkipToNextTokenL st1.input.tail
          .ok { st1 with input := t.1 } l1
        else runBlock dispatch eofTolerant fuel { st1 with input := st1.input.tail } l1 (depth - 1)
      else if peekc st1.input = NULC then
        if eofTolerant then .ok st1 l1 else .err st1 l1
      else
        runBlock dispatch eofTolerant fuel
          { st1 with input := st1.input.tail,
                     line := if IsLineEnd (peekc st1.input) then st1.line + 1 else st1.line }
          l1 depth

/-- Keyword dispatch of `Parser::ParseLV3MeshVertexListBlock` (lines
972-989): a `*MESH_VERTEX` entry parses an index-prefixed float triple;
an index at or beyond the declared vertex count is dropped with one
warning, otherwise the triple is stored at the indexed slot. -/
def VertexListDispatch (n : Nat) (_fuel : Nat) (st : PState) (m : Mesh) : PRes Mesh :=
  if MatchKw st.input "*MESH_VERTEX".data 12 then
    let r := ParseLV4MeshFloatTripleIdx { st with input := st.input.drop 13 }
    if n ≤ r.2.2 then .ok { r.1 with warns := r.1.warns + 1 } m
    else .ok r.1 { m with mPositions := m.mPositions.set r.2.2 r.2.1 }
  else .ok st m

/-- `Parser::ParseLV3MeshVertexListBlock` (lines 964-1010): resize the
position array to the declared count, then run the block loop. -/
def ParseLV3MeshVertexListBlock (fuel : Nat) (n : Nat) (st : PState) (m : Mesh) : PRes Mesh :=
  runBlock (VertexListDispatch n) false fuel st
    { m with mPositions := resizeList m.mPositions n {} } 1

/-- Keyword dispatch of `Parser::ParseLV3MeshFaceListBlock` (lines
1019-1035): a `*MESH_FACE` entry runs the face micro-parser; a face index
at or beyond the declared count is dropped with one warning, otherwise
the face is stored at its own declared index. -/
def FaceListDispatch (n : Nat) (_fuel : Nat) (st : PState) (m : Mesh) : PRes Mesh :=
  if MatchKw st.input "*MESH_FACE".data 10 then
    match ParseLV4MeshFace { st with input := st.input.drop 11 } with
    | .fatalStop st2 _ => .err st2 m
    | .ok st2 f =>
      if n ≤ f.iFace then .ok { st2 with warns := st2.warns + 1 } m
      else .ok st2 { m with mFaces := m.mFaces.set f.iFace f }
  else .ok st m

/-- `Parser::ParseLV3MeshFaceListBlock` (lines 1012-1056). -/
def ParseLV3MeshFaceListBlock (fuel : Nat) (n : Nat) (st : PState) (m : Mesh) : PRes Mesh :=
  runBlock (FaceListDispatch n) false fuel st
    { m with mFaces := resizeList m.mFaces n {} } 1

/-- Keyword dispatch of `Parser::ParseLV3MeshTListBlock` (lines 1066-1089):
a `*MESH_TVERT` entry parses an index-prefixed float triple; out-of-range
indices are dropped with one warning; independently of that bound check,
a nonzero third component upgrades the channel to 3 UV components. -/
def TListDispatch (n : Nat) (ch : Nat) (_fuel : Nat) (st : PState) (m : Mesh) : PRes Mesh :=
  if MatchKw st.input "*MESH_TVERT".data 11 then
    let r := ParseLV4MeshFloatTripleIdx { st with input := st.input.drop 12 }
    let wb : PState × Mesh :=
      if n ≤ r.2.2 then ({ r.1 with warns := r.1.warns + 1 }, m)
      else (r.1, { m with
        amTexCoords := m.amTexCoords.set ch ((m.amTexCoords.getD ch []).set r.2.2 r.2.1) })
    if r.2.1.z ≠ 0 then
      .ok wb.1 { wb.2 with mNumUVComponents := wb.2.mNumUVComponents.set ch 3 }
    else .ok wb.1 wb.2
  else .ok st m

/-- `Parser::ParseLV3MeshTListBlock` (lines 1058-1110): resize the
channel's UV array to the declared count, then run the block loop. -/
def ParseLV3MeshTListBlock (fuel : Nat) (n : Nat) (st : PState) (m : Mesh) (ch : Nat) : PRes Mesh :=
  runBlock (TListDispatch n ch) false fuel st
    { m with amTexCoords := m.amTexCoords.set ch (resizeList (m.amTexCoords.getD ch []) n {}) } 1

/-- Keyword dispatch of `Parser::ParseLV3MeshTFaceListBlock` (lines
1118-1141).  The source compares 12 characters of the 11-character
literal `*MESH_TFACE` (including its NUL terminator), so the comparison
can only succeed when the keyword is the last thing in the buffer; a
well-formed entry followed by a space never matches.  When an entry does
match, its index is checked against both the declared count and the
actual face array length and the UV index triple is stored for the
active channel. -/
def TFaceDispatch (n : Nat) (ch : Nat) (_fuel : Nat) (st : PState) (m : Mesh) : PRes Mesh :=
  if MatchKw st.input "*MESH_TFACE".data 12 then
    let r := ParseLV4MeshLongTripleIdx { st with input := st.input.drop 13 }
    if n ≤ r.2.2 || m.mFaces.length ≤ r.2.2 then .ok { r.1 with warns := r.1.warns + 1 } m
    else
      let f := m.mFaces.getD r.2.2 {}
      let f2 := { f with amUVIndices := f.amUVIndices.set ch [r.2.1.1, r.2.1.2.1, r.2.1.2.2] }
      .ok r.1 { m with mFaces := m.mFaces.set r.2.2 f2 }
  else .ok st m

/-- `Parser::ParseLV3MeshTFaceListBlock` (lines 1112-1162): no resize, just
the block loop. -/
def ParseLV3MeshTFaceListBlock (fuel : Nat) (n : Nat) (st : PState) (m : Mesh) (ch : Nat) :
    PRes Mesh :=
  runBlock (TFaceDispatch n ch) false fuel st m 1

/-- Keyword dispatch of `Parser::ParseLV3MeshCListBlock` (lines 1233-1251):
a `*MESH_VERTCOL` entry parses an index-prefixed float triple into the
r/g/b channels with alpha preset to 1; out-of-range indices are dropped
with one warning. -/
def CListDispatch (n : Nat) (_fuel : Nat) (st : PState) (m : Mesh) : PRes Mesh :=
  if MatchKw st.input "*MESH_VERTCOL".data 13 then
    let r := ParseLV4MeshFloatTripleIdx { st with input := st.input.drop 14 }
    if n ≤ r.2.2 then .ok { r.1 with warns := r.1.warns + 1 } m
    else
      let col : Col4 := { r := r.2.1.x, g := r.2.1.y, b := r.2.1.z, a := 1 }
      .ok r.1 { m with mVertexColors := m.mVertexColors.set r.2.2 col }
  else .ok st m

/-- `Parser::ParseLV3MeshCListBlock` (lines 1226-1272). -/
def ParseLV3MeshCListBlock (fuel : Nat) (n : Nat) (st : PState) (m : Mesh) : PRes Mesh :=
  runBlock (CListDispatch n) false fuel st
    { m with mVertexColors := resizeList m.mVertexColors n {} } 1

/-- Keyword dispatch of `Parser::ParseLV3MeshCFaceListBlock` (lines
1279-1302).  Like `*MESH_TFACE`, the source compares 12 characters of the
11-character literal `*MESH_CFACE`, so a well-formed entry never
matches. -/
def CFaceDispatch (n : Nat) (_fuel : Nat) (st : PState) (m : Mesh) : PRes Mesh :=
  if MatchKw st.input "*MESH_CFACE".data 12 then
    let r := ParseLV4MeshLongTripleIdx { st with input := st.input.drop 13 }
    if n ≤ r.2.2 || m.mFaces.length ≤ r.2.2 then .ok { r.1 with warns := r.1.warns + 1 } m
    else
      let f := m.mFaces.getD r.2.2 {}
      let f2 := { f with mColorIndices := [r.2.1.1, r.2.1.2.1, r.2.1.2.2] }
      .ok r.1 { m with mFaces := m.mFaces.set r.2.2 f2 }
  else .ok st m

/-- `Parser::ParseLV3MeshCFaceListBlock` (lines 1274-1323). -/
def ParseLV3MeshCFaceListBlock (fuel : Nat) (n : Nat) (st : PState) (m : Mesh) : PRes Mesh :=
  runBlock (CFaceDispatch n) false fuel st m 1

/-- Body of one iteration of `Parser::ParseLV3MeshNormalListBlock` (lines
1335-1354): a `*MESH_VERTEXNORMAL` entry parses an index-prefixed float
triple; an out-of-range index is clamped (not dropped) to the last slot
with a warning — when the normal array is empty the C source clamps to
`size() - 1`, an out-of-bounds write (undefined behavior), which the
list model turns into a dropped write. -/
def NormalDispatch (_fuel : Nat) (st : PState) (m : Mesh) : PRes Mesh :=
  if MatchKw st.input "*MESH_VERTEXNORMAL".data 18 then
    let r := ParseLV4MeshFloatTripleIdx { st with input := st.input.drop 19 }
    let p : PState × Nat :=
      if m.mNormals.length ≤ r.2.2 then ({ r.1 with warns := r.1.warns + 1 }, m.mNormals.length - 1)
      else (r.1, r.2.2)
    .ok p.1 { m with mNormals := m.mNormals.set p.2 r.2.1 }
  else .ok st m

/-- Loop of `Parser::ParseLV3MeshNormalListBlock` (lines 1333-1372): the
same skeleton as the other blocks but without line counting and with the
fatal BLUBB on end of input. -/
def NormalLoop : Nat → PState → Mesh → Nat → PRes Mesh
  | 0, st, m, _ => .out st m
  | fuel + 1, st, m, depth =>
    match (if peekc st.input = '*' then NormalDispatch fuel st m else .ok st m) with
    | .err st1 m1 => .err st1 m1
    | .oob st1 m1 => .oob st1 m1
    | .out st1 m1 => .out st1 m1
    | .ok st1 m1 =>
      if peekc st1.input = '{' then
        NormalLoop fuel { st1 with input := st1.input.tail } m1 (depth + 1)
      else if peekc st1.input = '}' then
        if depth = 1 then
          let t := SkipToNextTokenL st1.input.tail
          .ok { st1 with input := t.1 } m1
        else NormalLoop fuel { st1 with input := st1.input.tail } m1 (depth - 1)
      else if peekc st1.input = NULC then .err st1 m1
      else NormalLoop fuel { st1 with input := st1.input.tail } m1 depth

/-- `Parser::ParseLV3MeshNormalListBlock` (lines 1325-1374): resize the
normal array to the position count, then run the loop.  No dispatcher in
the source ever calls this function. -/
def ParseLV3MeshNormalListBlock (fuel : Nat) (st : PState) (m : Mesh) : PRes Mesh :=
  NormalLoop fuel st { m with mNormals := resizeList m.mNormals m.mPositions.length {} } 1

/-- Keyword dispatch of `Parser::ParseLV3MappingChannel` (lines 1172-1203):
local texture-vertex/face counts, and the channel's TVERTLIST/TFACELIST
blocks, each entered after an explicit opening-brace skip. -/
def MapChanDispatch (ch : Nat) (fuel : Nat) (st : PState) (l : Mesh × Nat × Nat) :
    PRes (Mesh × Nat × Nat) :=
  let m := l.1
  let nTV := l.2.1
  let nTF := l.2.2
  let inp := st.input
  if MatchKw inp "*MESH_NUMTVERTEX".data 16 then
    let r := ParseLV4MeshLong { st with input := inp.drop 17 }
    .ok r.1 (m, r.2, nTF)
  else if MatchKw inp "*MESH_NUMTVFACES".data 16 then
    let r := ParseLV4MeshLong { st with input := inp.drop 17 }
    .ok r.1 (m, nTV, r.2)
  else if MatchKw inp "*MESH_TVERTLIST".data 15 then
    let st2 := (SkipOpeningBracket { st with input := inp.drop 16 }).1
    (ParseLV3MeshTListBlock fuel nTV st2 m ch).mapA (fun m' => (m', nTV, nTF))
  else if MatchKw inp "*MESH_TFACELIST".data 15 then
    let st2 := (SkipOpeningBracket { st with input := inp.drop 16 }).1
    (ParseLV3MeshTFaceListBlock fuel nTF st2 m ch).mapA (fun m' => (m', nTV, nTF))
  else .ok st l

/-- `Parser::ParseLV3MappingChannel` (lines 1164-1224). -/
def ParseLV3MappingChannel (fuel : Nat) (ch : Nat) (st : PState) (m : Mesh) : PRes Mesh :=
  (runBlock (MapChanDispatch ch) false fuel st (m, 0, 0) 1).mapA (·.1)

/-- The `*MESH_MAPPINGCHANNEL` handler of `Parser::ParseLV2MeshBlock`
(lines 904-934), starting just after the keyword.  It reproduces the
source's control flow faithfully: the `iIndex < 2` discard is a separate
`if`, so after warning and discarding the sub-block the `else` of the
following range check still runs and enters `ParseLV3MappingChannel`
with `iIndex - 1` (unsigned, so index 0 wraps to 2^32 - 1). -/
def MeshMappingChannel (fuel : Nat) (st : PState) (m : Mesh) : PRes Mesh :=
  let r := ParseLV4MeshLong st
  let st3 :=
    if r.2 < 2 then SkipSection (SkipOpeningBracket { r.1 with warns := r.1.warns + 1 }).1
    else r.1
  if AI_MAX_NUMBER_OF_TEXTURECOORDS < r.2 then
    .ok (SkipSection (SkipOpeningBracket { st3 with warns := st3.warns + 1 }).1) m
  else
    let st4 := (SkipOpeningBracket st3).1
    ParseLV3MappingChannel fuel ((r.2 + 4294967295) % 4294967296) st4 m

/-- The six per-mesh declared counts, local to `ParseLV2MeshBlock`. -/
structure MeshCounts where
  nV : Nat := 0
  nF : Nat := 0
  nTV : Nat := 0
  nTF : Nat := 0
  nCV : Nat := 0
  nCF : Nat := 0
deriving Repr, DecidableEq

/-- A count keyword of `ParseLV2MeshBlock`: parse an unsigned int and
store it in the named counter (lines 815-855). -/
def MeshCountKw (upd : MeshCounts → Nat → MeshCounts) (st : PState) (l : Mesh × MeshCounts) :
    PRes (Mesh × MeshCounts) :=
  let r := ParseLV4MeshLong st
  .ok r.1 (l.1, upd l.2 r.2)

/-- The `*MATERIAL_REF` handler of `ParseLV2MeshBlock` (lines 936-941). -/
def MeshMaterialRef (st : PState) (l : Mesh × MeshCounts) : PRes (Mesh × MeshCounts) :=
  let r := ParseLV4MeshLong st
  .ok r.1 ({ l.1 with iMaterialIndex := r.2 }, l.2)

/-- Keyword dispatch of `Parser::ParseLV2MeshBlock` (lines 812-941): six
count keywords, six list blocks, the `*MESH_MAPPINGCHANNEL` branch
(`MeshMappingChannel`) and `*MATERIAL_REF`. -/
def MeshDispatch (fuel : Nat) (st : PState) (l : Mesh × MeshCounts) : PRes (Mesh × MeshCounts) :=
  let m := l.1
  let c := l.2
  let inp := st.input
  if MatchKw inp "*MESH_NUMVERTEX".data 15 then
    MeshCountKw (fun c v => { c with nV := v }) { st with input := inp.drop 16 } l
  else if MatchKw inp "*MESH_NUMTVERTEX".data 16 then
    MeshCountKw (fun c v => { c with nTV := v }) { st with input := inp.drop 17 } l
  else if MatchKw inp "*MESH_NUMCVERTEX".data 16 then
    MeshCountKw (fun c v => { c with nCV := v }) { st with input := inp.drop 17 } l
  else if MatchKw inp "*MESH_NUMFACES".data 14 then
    MeshCountKw (fun c v => { c with nF := v }) { st with input := inp.drop 15 } l
  else if MatchKw inp "*MESH_NUMTVFACES".data 16 then
    MeshCountKw (fun c v => { c with nTF := v }) { st with input := inp.drop 17 } l
  else if MatchKw inp "*MESH_NUMCVFACES".data 16 then
    MeshCountKw (fun c v => { c with nCF := v }) { st with input := inp.drop 17 } l
  else if MatchKw inp "*MESH_VERTEX_LIST".data 17 then
    (ParseLV3MeshVertexListBlock fuel c.nV { st with input := inp.drop 18 } m).mapA
      (fun m' => (m', c))
  else if MatchKw inp "*MESH_FACE_LIST".data 15 then
    let st2 := (SkipOpeningBracket { st with input := inp.drop 16 }).1
    (ParseLV3MeshFaceListBlock fuel c.nF st2 m).mapA (fun m' => (m', c))
  else if MatchKw inp "*MESH_TVERTLIST".data 15 then
    let st2 := (SkipOpeningBracket { st with input := inp.drop 16 }).1
    (ParseLV3MeshTListBlock fuel c.nTV st2 m 0).mapA (fun m' => (m', c))
  else if MatchKw inp "*MESH_TFACELIST".data 15 then
    let st2 := (SkipOpeningBracket { st with input := inp.drop 16 }).1
    (ParseLV3MeshTFaceListBlock fuel c.nTF st2 m 0).mapA (fun m' => (m', c))
  else if MatchKw inp "*MESH_CVERTLIST".data 15 then
    let st2 := (SkipOpeningBracket { st with input := inp.drop 16 }).1
    (ParseLV3MeshCListBlock fuel c.nCV st2 m).mapA (fun m' => (m', c))
  else if MatchKw inp "*MESH_CFACELIST".data 15 then
    let st2 := (SkipOpeningBracket { st with input := inp.drop 16 }).1
    (ParseLV3MeshCFaceListBlock fuel c.nCF st2 m).mapA (fun m' => (m', c))
  else if MatchKw inp "*MESH_MAPPINGCHANNEL".data 20 then
    (MeshMappingChannel fuel { st with input := inp.drop 21 } m).mapA (fun m' => (m', c))
  else if MatchKw inp "*MATERIAL_REF".data 13 then
    MeshMaterialRef { st with input := inp.drop 14 } l
  else .ok st l

/-- `Parser::ParseLV2MeshBlock` (lines 801-962). -/
def ParseLV2MeshBlock (fuel : Nat) (st : PState) (m : Mesh) : PRes Mesh :=
  (runBlock MeshDispatch false fuel st (m, {}) 1).mapA (·.1)

/-- Keyword dispatch of `Parser::ParseLV2NodeTransformBlock` (lines
749-778): the four `*TM_ROWi` keywords each store one row of the 4x3
transform. -/
def NodeTmDispatch (_fuel : Nat) (st : PState) (m : Mesh) : PRes Mesh :=
  let inp := st.input
  if MatchKw inp "*TM_ROW0".data 8 then
    let r := ParseLV4MeshFloatTriple { st with input := inp.drop 9 }
    .ok r.1 { m with mTransform := m.mTransform.set 0 r.2 }
  else if MatchKw inp "*TM_ROW1".data 8 then
    let r := ParseLV4MeshFloatTriple { st with input := inp.drop 9 }
    .ok r.1 { m with mTransform := m.mTransform.set 1 r.2 }
  else if MatchKw inp "*TM_ROW2".data 8 then
    let r := ParseLV4MeshFloatTriple { st with input := inp.drop 9 }
    .ok r.1 { m with mTransform := m.mTransform.set 2 r.2 }
  else if MatchKw inp "*TM_ROW3".data 8 then
    let r := ParseLV4MeshFloatTriple { st with input := inp.drop 9 }
    .ok r.1 { m with mTransform := m.mTransform.set 3 r.2 }
  else .ok st m

/-- `Parser::ParseLV2NodeTransformBlock` (lines 744-799). -/
def ParseLV2NodeTransformBlock (fuel : Nat) (st : PState) (m : Mesh) : PRes Mesh :=
  runBlock NodeTmDispatch false fuel st m 1

/-- Keyword dispatch of `Parser::ParseLV1GeometryObjectBlock` (lines
675-721): the quoted `*NODE_NAME` (same pointer-against-null end guard
as `*BITMAP`, hence `oob` on a missing closing quote), the node
transform sub-block, and the mesh sub-block. -/
def GeomObjDispatch (fuel : Nat) (st : PState) (m : Mesh) : PRes Mesh :=
  let inp := st.input
  if MatchKw inp "*NODE_NAME".data 10 then
    match SkipSpaces (inp.drop 11) with
    | (i2, false) => .err { st with input := i2 } m
    | (i2, true) =>
      if peekc i2 ≠ '"' then .err { st with input := i2 } m
      else
        match FindClosingQuote i2.tail with
        | none => .oob { st with input := [] } m
        | some (name, rest) => .ok { st with input := rest } { m with mName := name }
  else if MatchKw inp "*NODE_TM".data 8 then
    ParseLV2NodeTransformBlock fuel { st with input := inp.drop 9 } m
  else if MatchKw inp "*MESH".data 5 then
    ParseLV2MeshBlock fuel { st with input := inp.drop 6 } m
  else .ok st m

/-- `Parser::ParseLV1GeometryObjectBlock` (lines 670-742): a level-1 block,
end of input is tolerated. -/
def ParseLV1GeometryObjectBlock (fuel : Nat) (st : PState) (m : Mesh) : PRes Mesh :=
  runBlock GeomObjDispatch true fuel st m 1

/-- Propagate everything but a normal return (the C++ exception unwinding
and the modelled overrun/fuel outcomes). -/
def PRes.andThen (r : PRes α) (k : PState → α → PRes α) : PRes α :=
  match r with
  | .ok st a => k st a
  | x => x

/-- The `*BITMAP` branch of `Parser::ParseLV3MapBlock` (lines 576-605):
missing whitespace or a missing opening quote is fatal (BLUBB); the path
is the exact characters up to the closing quote, and the cursor is left
on the closing quote; a missing closing quote makes the scan overrun the
buffer (see `FindClosingQuote`). -/
def MapBitmapStep (st : PState) (tex : Texture) : PRes Texture :=
  if MatchKw st.input "*BITMAP".data 7 then
    match SkipSpaces (st.input.drop 8) with
    | (i2, false) => .err { st with input := i2 } tex
    | (i2, true) =>
      if peekc i2 ≠ '"' then .err { st with input := i2 } tex
      else
        match FindClosingQuote i2.tail with
        | none => .oob { st with input := [] } tex
        | some p => .ok { st with input := p.2 } { tex with mMapName := p.1 }
  else .ok st tex

/-- One plain-float keyword of `Parser::ParseLV3MapBlock` (lines 607-647). -/
def MapFloatStep (lit : List Char) (n : Nat) (put : Texture → ℚ → Texture)
    (st : PState) (tex : Texture) : PRes Texture :=
  if MatchKw st.input lit n then
    let r := ParseLV4MeshFloat { st with input := st.input.drop (n + 1) }
    .ok r.1 (put tex r.2)
  else .ok st tex

/-- Keyword dispatch of `Parser::ParseLV3MapBlock` (lines 573-648).  Unlike
every other block, the seven keyword tests are SEQUENTIAL `if`s (not an
`else if` chain), each testing the cursor as left by the previous
handler, so several consecutive keywords can be consumed within one loop
iteration. -/
def MapDispatch (_fuel : Nat) (st : PState) (tex : Texture) : PRes Texture :=
  (((((((MapBitmapStep st tex).andThen
    (MapFloatStep "*UVW_U_OFFSET".data 13 (fun t v => { t with mOffsetU := v }))).andThen
    (MapFloatStep "*UVW_V_OFFSET".data 13 (fun t v => { t with mOffsetV := v }))).andThen
    (MapFloatStep "*UVW_U_TILING".data 13 (fun t v => { t with mScaleU := v }))).andThen
    (MapFloatStep "*UVW_V_TILING".data 13 (fun t v => { t with mScaleV := v }))).andThen
    (MapFloatStep "*UVW_ANGLE".data 10 (fun t v => { t with mRotation := v }))).andThen
    (MapFloatStep "*MAP_AMOUNT".data 11 (fun t v => { t with mTextureBlend := v })))

/-- `Parser::ParseLV3MapBlock` (lines 567-668): a level-3 block, end of
input is fatal. -/
def ParseLV3MapBlock (fuel : Nat) (st : PState) (tex : Texture) : PRes Texture :=
  runBlock MapDispatch false fuel st tex 1

/-- The clamp applied to an out-of-range `*MATERIAL` / `*SUBMATERIAL` index
(lines 294-298 and 529-533): an index at or beyond the declared count is
replaced by `count - 1` computed in unsigned 32-bit arithmetic, so a
declared count of 0 yields 2^32 - 1. -/
def materialClamp (cnt idx : Nat) : Nat :=
  if cnt ≤ idx then (cnt + 4294967295) % 4294967296 else idx

/-- The token scan of `*MATERIAL_NAME` (lines 349-352): take characters up
to the next whitespace/line end (the NUL terminator also stops it). -/
def TakeToSpace : List Char → List Char × List Char
  | [] => ([], [])
  | c :: r =>
    if IsSpaceOrNewLine c then ([], c :: r)
    else
      let p := TakeToSpace r
      (c :: p.1, p.2)

/-- Keyword dispatch of `Parser::ParseLV2MaterialBlock` (lines 337-544):
name, three colors, shading mode, transparency (stored inverted),
self-illumination (broadcast), shininess (scaled by 15), seven texture
maps, the sub-material count, and the recursive `*SUBMATERIAL` branch
with the same clamp-on-overflow policy as `*MATERIAL`.  The recursion
into the sub-material block is passed in as `recur`. -/
def MatDispatch (recur : PState → Material → PRes Material) (fuel : Nat) (st : PState)
    (l : Material × Nat) : PRes (Material × Nat) :=
  let mat := l.1
  let ns := l.2
  let inp := st.input
  if MatchKw inp "*MATERIAL_NAME".data 14 then
    match SkipSpaces (inp.drop 15) with
    | (i2, false) => .err { st with input := i2 } l
    | (i2, true) =>
      let p := TakeToSpace i2
      .ok { st with input := p.2 } (mat.withCore (fun c => { c with mName := p.1 }), ns)
  else if MatchKw inp "*MATERIAL_AMBIENT".data 17 then
    let r := ParseLV4MeshFloatTriple { st with input := inp.drop 18 }
    .ok r.1 (mat.withCore (fun c => { c with mAmbient := ⟨r.2.x, r.2.y, r.2.z⟩ }), ns)
  else if MatchKw inp "*MATERIAL_DIFFUSE".data 17 then
    let r := ParseLV4MeshFloatTriple { st with input := inp.drop 18 }
    .ok r.1 (mat.withCore (fun c => { c with mDiffuse := ⟨r.2.x, r.2.y, r.2.z⟩ }), ns)
  else if MatchKw inp "*MATERIAL_SPECULAR".data 18 then
    let r := ParseLV4MeshFloatTriple { st with input := inp.drop 19 }
    .ok r.1 (mat.withCore (fun c => { c with mSpecular := ⟨r.2.x, r.2.y, r.2.z⟩ }), ns)
  else if MatchKw inp "*MATERIAL_SHADING".data 17 then
    let i2 := inp.drop 18
    if MatchKw i2 "Blinn".data 5 then
      .ok { st with input := i2.drop 6 } (mat.withCore (fun c => { c with mShading := .Blinn }), ns)
    else if MatchKw i2 "Phong".data 5 then
      .ok { st with input := i2.drop 6 } (mat.withCore (fun c => { c with mShading := .Phong }), ns)
    else if MatchKw i2 "Flat".data 4 then
      .ok { st with input := i2.drop 5 } (mat.withCore (fun c => { c with mShading := .Flat }), ns)
    else if MatchKw i2 "Wire".data 4 then
      .ok { st with input := i2.drop 5 } (mat.withCore (fun c => { c with mShading := .Wire }), ns)
    else
      let t := SkipToNextTokenL i2
      .ok { st with input := t.1 } (mat.withCore (fun c => { c with mShading := .Gouraud }), ns)
  else if MatchKw inp "*MATERIAL_TRANSPARENCY".data 22 then
    let r := ParseLV4MeshFloat { st with input := inp.drop 23 }
    .ok r.1 (mat.withCore (fun c => { c with mTransparency := 1 - r.2 }), ns)
  else if MatchKw inp "*MATERIAL_SELFILLUM".data 19 then
    let r := ParseLV4MeshFloat { st with input := inp.drop 20 }
    .ok r.1 (mat.withCore (fun c => { c with mEmissive := ⟨r.2, r.2, r.2⟩ }), ns)
  else if MatchKw inp "*MATERIAL_SHINE".data 15 then
    let r := ParseLV4MeshFloat { st with input := inp.drop 16 }
    .ok r.1 (mat.withCore (fun c => { c with mSpecularExponent := r.2 * 15 }), ns)
  else if MatchKw inp "*MAP_DIFFUSE".data 12 then
    let st2 := (SkipOpeningBracket { st with input := inp.drop 13 }).1
    (ParseLV3MapBlock fuel st2 mat.core.sTexDiffuse).mapA
      (fun tx => (mat.withCore (fun c => { c with sTexDiffuse := tx }), ns))
  else if MatchKw inp "*MAP_AMBIENT".data 12 then
    let st2 := (SkipOpeningBracket { st with input := inp.drop 13 }).1
    (ParseLV3MapBlock fuel st2 mat.core.sTexAmbient).mapA
      (fun tx => (mat.withCore (fun c => { c with sTexAmbient := tx }), ns))
  else if MatchKw inp "*MAP_SPECULAR".data 13 then
    let st2 := (SkipOpeningBracket { st with input := inp.drop 14 }).1
    (ParseLV3MapBlock fuel st2 mat.core.sTexSpecular).mapA
      (fun tx => (mat.withCore (fun c => { c with sTexSpecular := tx }), ns))
  else if MatchKw inp "*MAP_OPACITY".data 12 then
    let st2 := (SkipOpeningBracket { st with input := inp.drop 13 }).1
    (ParseLV3MapBlock fuel st2 mat.core.sTexOpacity).mapA
      (fun tx => (mat.withCore (fun c => { c with sTexOpacity := tx }), ns))
  else if MatchKw inp "*MAP_SELFILLUM".data 14 then
    let st2 := (SkipOpeningBracket { st with input := inp.drop 15 }).1
    (ParseLV3MapBlock fuel st2 mat.core.sTexEmissive).mapA
      (fun tx => (mat.withCore (fun c => { c with sTexEmissive := tx }), ns))
  else if MatchKw inp "*MAP_BUMP".data 9 then
    let st2 := (SkipOpeningBracket { st with input := inp.drop 10 }).1
    (ParseLV3MapBlock fuel st2 mat.core.sTexBump).mapA
      (fun tx => (mat.withCore (fun c => { c with sTexBump := tx }), ns))
  else if MatchKw inp "*MAP_SHINE".data 10 then
    let st2 := (SkipOpeningBracket { st with input := inp.drop 11 }).1
    (ParseLV3MapBlock fuel st2 mat.core.sTexShininess).mapA
      (fun tx => (mat.withCore (fun c => { c with sTexShininess := tx }), ns))
  else if MatchKw inp "*NUMSUBMTLS".data 11 then
    let r := ParseLV4MeshLong { st with input := inp.drop 12 }
    .ok r.1 (mat.withSubs (fun s => resizeList s r.2 Material.default), r.2)
  else if MatchKw inp "*SUBMATERIAL".data 12 then
    let r := ParseLV4MeshLong { st with input := inp.drop 13 }
    let st2 := if ns ≤ r.2 then { r.1 with warns := r.1.warns + 1 } else r.1
    let idx := materialClamp ns r.2
    let sub := mat.avSubMaterials.getD idx Material.default
    let st3 := (SkipOpeningBracket st2).1
    (recur st3 sub).mapA (fun sub' => (mat.withSubs (fun s => s.set idx sub'), ns))
  else .ok st l

/-- `Parser::ParseLV2MaterialBlock` (lines 331-565): a level-2 block, end
of input is fatal; `*SUBMATERIAL` recurses into this same parser, with
fuel bounding the recursion depth of the embedding. -/
def ParseLV2MaterialBlock : Nat → PState → Material → PRes Material
  | 0, st, m => .out st m
  | fuel + 1, st, m =>
    (runBlock (fun f2 st2 l => MatDispatch (ParseLV2MaterialBlock fuel) f2 st2 l)
      false (fuel + 1) st (m, 0) 1).mapA (·.1)

/-- Keyword dispatch of `Parser::ParseLV1MaterialListBlock` (lines
276-309): `*MATERIAL_COUNT` pre-sizes the material table; `*MATERIAL`
parses an explicit index, clamps it into range with a warning when it is
at or beyond the declared count, and recurses into the material block at
the clamped slot.  When the declared count is 0 the clamped index is
2^32 - 1 and the C source indexes an empty vector (undefined behavior);
the list model reads the default material and drops the write-back. -/
def MatListDispatch (fuel : Nat) (st : PState) (l : List Material × Nat) :
    PRes (List Material × Nat) :=
  let mats := l.1
  let cnt := l.2
  let inp := st.input
  if MatchKw inp "*MATERIAL_COUNT".data 15 then
    let r := ParseLV4MeshLong { st with input := inp.drop 16 }
    .ok r.1 (resizeList mats r.2 Material.default, r.2)
  else if MatchKw inp "*MATERIAL".data 9 then
    let r := ParseLV4MeshLong { st with input := inp.drop 10 }
    let st2 := if cnt ≤ r.2 then { r.1 with warns := r.1.warns + 1 } else r.1
    let idx := materialClamp cnt r.2
    let mat := mats.getD idx Material.default
    let st3 := (SkipOpeningBracket st2).1
    (ParseLV2MaterialBlock fuel st3 mat).mapA (fun mat' => (mats.set idx mat', cnt))
  else .ok st l

/-- `Parser::ParseLV1MaterialListBlock` (lines 270-329): a level-1 block,
end of input is tolerated (`// END OF FILE ... why not?`). -/
def ParseLV1MaterialListBlock (fuel : Nat) (st : PState) (mats : List Material) :
    PRes (List Material) :=
  (runBlock MatListDispatch true fuel st (mats, 0) 1).mapA (·.1)

/-- Keyword dispatch of `Parser::ParseLV1SceneBlock` (lines 230-248): the
background and ambient color triples. -/
def SceneDispatch (_fuel : Nat) (st : PState) (l : Triple × Triple) : PRes (Triple × Triple) :=
  let inp := st.input
  if MatchKw inp "*SCENE_BACKGROUND_STATIC".data 24 then
    let r := ParseLV4MeshFloatTriple { st with input := inp.drop 25 }
    .ok r.1 (⟨r.2.x, r.2.y, r.2.z⟩, l.2)
  else if MatchKw inp "*SCENE_AMBIENT_STATIC".data 21 then
    let r := ParseLV4MeshFloatTriple { st with input := inp.drop 22 }
    .ok r.1 (l.1, ⟨r.2.x, r.2.y, r.2.z⟩)
  else .ok st l

/-- `Parser::ParseLV1SceneBlock` (lines 225-268): a level-1 block, end of
input is tolerated (`// END OF FILE ... why not?`). -/
def ParseLV1SceneBlock (fuel : Nat) (st : PState) (l : Triple × Triple) :
    PRes (Triple × Triple) :=
  runBlock SceneDispatch true fuel st l 1

/-- Keyword dispatch of `Parser::Parse` (lines 162-203): the version tag
(warn on a version other than 200), the scene block, the material list,
and `*GEOMOBJECT`, which appends a fresh default mesh to the scene
before parsing into it (so the entry stays even if the object parse
degrades or aborts). -/
def TopDispatch (fuel : Nat) (st : PState) (sc : Scene) : PRes Scene :=
  let inp := st.input
  if MatchKw inp "*3DSMAX_ASCIIEXPORT".data 19 then
    let r := ParseLV4MeshLong { st with input := inp.drop 20 }
    .ok (if r.2 = 200 then r.1 else { r.1 with warns := r.1.warns + 1 }) sc
  else if MatchKw inp "*SCENE".data 6 then
    (ParseLV1SceneBlock fuel { st with input := inp.drop 7 } (sc.clrBackground, sc.clrAmbient)).mapA
      (fun p => { sc with clrBackground := p.1, clrAmbient := p.2 })
  else if MatchKw inp "*MATERIAL_LIST".data 14 then
    (ParseLV1MaterialListBlock fuel { st with input := inp.drop 15 } sc.materials).mapA
      (fun ms => { sc with materials := ms })
  else if MatchKw inp "*GEOMOBJECT".data 11 then
    (ParseLV1GeometryObjectBlock fuel { st with input := inp.drop 12 } {}).mapA
      (fun m => { sc with meshes := sc.meshes ++ [m] })
  else .ok st sc

/-- `Parser::Parse` (lines 157-223): the top-level driver; end of input is
tolerated (`// END OF FILE ... why not?`). -/
def Parse (fuel : Nat) (st : PState) (sc : Scene) : PRes Scene :=
  runBlock TopDispatch true fuel st sc 1

/-- A whole parser invocation: `Parser::Parser(szFile)` (cursor at the
start, line counter 0, no diagnostics yet, empty scene) followed by
`Parser::Parse`. -/
def ParseFile (fuel : Nat) (input : List Char) : PRes Scene :=
  Parse fuel { input := input, line := 0, warns := 0 } {}

/-- A parser state whose remaining input is exhausted: the cursor sits on
the NUL terminator while (depth-many) closing braces are still
outstanding. -/
def eofState (ln ws : Nat) : PState := { input := [], line := ln, warns := ws }

end ASE

namespace ASE

theorem PRes.val_mapA (f : α → β) (r : PRes α) : (r.mapA f).val = f r.val := by
  cases r <;> rfl

theorem runBlock_eof {L : Type} (d : Nat → PState → L → PRes L) (tol : Bool)
    (fuel : Nat) (ln ws : Nat) (l : L) (depth : Nat) :
    runBlock d tol (fuel + 1) { input := [], line := ln, warns := ws } l depth =
      if tol then .ok { input := [], line := ln, warns := ws } l
      else .err { input := [], line := ln, warns := ws } l := by
  have h1 : NULC ≠ '*' := by decide
  have h2 : NULC ≠ '{' := by decide
  have h3 : NULC ≠ '}' := by decide
  simp [runBlock, peekc, h1, h2, h3]

theorem runBlock_val_pres {L : Type} (d : Nat → PState → L → PRes L) (tol : Bool)
    (P : L → Prop) (hd : ∀ f st l, P l → P (d f st l).val) :
    ∀ fuel st l depth, P l → P ((runBlock d tol fuel st l depth).val) := by
  intro fuel
  induction fuel with
  | zero =>
    intro st l depth h
    simpa [runBlock, PRes.val] using h
  | succ n ih =>
    intro st l depth h
    have h1 : P (if peekc st.input = '*' then d n st l else .ok st l).val := by
      split
      · exact hd n st l h
      · simpa [PRes.val] using h
    rw [runBlock]
    rcases hr : (if peekc st.input = '*' then d n st l else .ok st l) with
      ⟨st1, l1⟩ | ⟨st1, l1⟩ | ⟨st1, l1⟩ | ⟨st1, l1⟩ <;>
      rw [hr] at h1 <;> simp only [PRes.val] at h1 <;> dsimp only
    · split
      · exact ih _ _ _ h1
      · split
        · split
          · simpa [PRes.val] using h1
          · exact ih _ _ _ h1
        · split
          · split <;> simpa [PRes.val] using h1
          · exact ih _ _ _ h1
    · simpa [PRes.val] using h1
    · simpa [PRes.val] using h1
    · simpa [PRes.val] using h1

end ASE

namespace ASE

theorem VertexListDispatch_normals (n f : Nat) (st : PState) (m : Mesh) :
    ((VertexListDispatch n f st m).val).mNormals = m.mNormals := by
  unfold VertexListDispatch
  dsimp only
  repeat' split
  all_goals rfl

theorem ParseLV3MeshVertexListBlock_normals (fuel n : Nat) (st : PState) (m : Mesh) :
    ((ParseLV3MeshVertexListBlock fuel n st m).val).mNormals = m.mNormals := by
  have h := runBlock_val_pres (VertexListDispatch n) false
    (fun mm : Mesh => mm.mNormals = m.mNormals)
    (fun f st2 l hl => by
      show ((VertexListDispatch n f st2 l).val).mNormals = m.mNormals
      rw [VertexListDispatch_normals]; exact hl)
    fuel st { m with mPositions := resizeList m.mPositions n {} } 1 rfl
  simpa [ParseLV3MeshVertexListBlock] using h

theorem FaceListDispatch_normals (n f : Nat) (st : PState) (m : Mesh) :
    ((FaceListDispatch n f st m).val).mNormals = m.mNormals := by
  unfold FaceListDispatch
  dsimp only
  repeat' split
  all_goals rfl

theorem ParseLV3MeshFaceListBlock_normals (fuel n : Nat) (st : PState) (m : Mesh) :
    ((ParseLV3MeshFaceListBlock fuel n st m).val).mNormals = m.mNormals := by
  have h := runBlock_val_pres (FaceListDispatch n) false
    (fun mm : Mesh => mm.mNormals = m.mNormals)
    (fun f st2 l hl => by
      show ((FaceListDispatch n f st2 l).val).mNormals = m.mNormals
      rw [FaceListDispatch_normals]; exact hl)
    fuel st { m with mFaces := resizeList m.mFaces n {} } 1 rfl
  simpa [ParseLV3MeshFaceListBlock] using h

theorem TListDispatch_normals (n ch f : Nat) (st : PState) (m : Mesh) :
    ((TListDispatch n ch f st m).val).mNormals = m.mNormals := by
  unfold TListDispatch
  dsimp only
  repeat' split
  all_goals rfl

theorem ParseLV3MeshTListBlock_normals (fuel n : Nat) (st : PState) (m : Mesh) (ch : Nat) :
    ((ParseLV3MeshTListBlock fuel n st m ch).val).mNormals = m.mNormals := by
  have h := runBlock_val_pres (TListDispatch n ch) false
    (fun mm : Mesh => mm.mNormals = m.mNormals)
    (fun f st2 l hl => by
      show ((TListDispatch n ch f st2 l).val).mNormals = m.mNormals
      rw [TListDispatch_normals]; exact hl)
    fuel st
    { m with amTexCoords := m.amTexCoords.set ch (resizeList (m.amTexCoords.getD ch []) n {}) }
    1 rfl
  simpa [ParseLV3MeshTListBlock] using h

theorem TFaceDispatch_normals (n ch f : Nat) (st : PState) (m : Mesh) :
    ((TFaceDispatch n ch f st m).val).mNormals = m.mNormals := by
  unfold TFaceDispatch
  dsimp only
  repeat' split
  all_goals rfl

theorem ParseLV3MeshTFaceListBlock_normals (fuel n : Nat) (st : PState) (m : Mesh) (ch : Nat) :
    ((ParseLV3MeshTFaceListBlock fuel n st m ch).val).mNormals = m.mNormals := by
  have h := runBlock_val_pres (TFaceDispatch n ch) false
    (fun mm : Mesh => mm.mNormals = m.mNormals)
    (fun f st2 l hl => by
      show ((TFaceDispatch n ch f st2 l).val).mNormals = m.mNormals
      rw [TFaceDispatch_normals]; exact hl)
    fuel st m 1 rfl
  simpa [ParseLV3MeshTFaceListBlock] using h

theorem CListDispatch_normals (n f : Nat) (st : PState) (m : Mesh) :
    ((CListDispatch n f st m).val).mNormals = m.mNormals := by
  unfold CListDispatch
  dsimp only
  repeat' split
  all_goals rfl

theorem ParseLV3MeshCListBlock_normals (fuel n : Nat) (st : PState) (m : Mesh) :
    ((ParseLV3MeshCListBlock fuel n st m).val).mNormals = m.mNormals := by
  have h := runBlock_val_pres (CListDispatch n) false
    (fun mm : Mesh => mm.mNormals = m.mNormals)
    (fun f st2 l hl => by
      show ((CListDispatch n f st2 l).val).mNormals = m.mNormals
      rw [CListDispatch_normals]; exact hl)
    fuel st { m with mVertexColors := resizeList m.mVertexColors n {} } 1 rfl
  simpa [ParseLV3MeshCListBlock] using h

theorem CFaceDispatch_normals (n f : Nat) (st : PState) (m : Mesh) :
    ((CFaceDispatch n f st m).val).mNormals = m.mNormals := by
  unfold CFaceDispatch
  dsimp only
  repeat' split
  all_goals rfl

theorem ParseLV3MeshCFaceListBlock_normals (fuel n : Nat) (st : PState) (m : Mesh) :
    ((ParseLV3MeshCFaceListBlock fuel n st m).val).mNormals = m.mNormals := by
  have h := runBlock_val_pres (CFaceDispatch n) false
    (fun mm : Mesh => mm.mNormals = m.mNormals)
    (fun f st2 l hl => by
      show ((CFaceDispatch n f st2 l).val).mNormals = m.mNormals
      rw [CFaceDispatch_normals]; exact hl)
    fuel st m 1 rfl
  simpa [ParseLV3MeshCFaceListBlock] using h

theorem MapChanDispatch_normals (ch f : Nat) (st : PState) (l : Mesh × Nat × Nat) :
    ((MapChanDispatch ch f st l).val).1.mNormals = l.1.mNormals := by
  unfold MapChanDispatch
  dsimp only
  repeat' split
  all_goals first
    | rfl
    | simp [PRes.val_mapA, ParseLV3MeshTListBlock_normals, ParseLV3MeshTFaceListBlock_normals]

theorem ParseLV3MappingChannel_normals (fuel ch : Nat) (st : PState) (m : Mesh) :
    ((ParseLV3MappingChannel fuel ch st m).val).mNormals = m.mNormals := by
  have h := runBlock_val_pres (MapChanDispatch ch) false
    (fun p : Mesh × Nat × Nat => p.1.mNormals = m.mNormals)
    (fun f st2 l hl => by
      show ((MapChanDispatch ch f st2 l).val).1.mNormals = m.mNormals
      rw [MapChanDispatch_normals]; exact hl)
    fuel st (m, 0, 0) 1 rfl
  simpa [ParseLV3MappingChannel, PRes.val_mapA] using h

theorem MeshMappingChannel_normals (fuel : Nat) (st : PState) (m : Mesh) :
    ((MeshMappingChannel fuel st m).val).mNormals = m.mNormals := by
  unfold MeshMappingChannel
  dsimp only
  split
  · rfl
  · exact ParseLV3MappingChannel_normals _ _ _ _

theorem MeshDispatch_normals (f : Nat) (st : PState) (l : Mesh × MeshCounts) :
    ((MeshDispatch f st l).val).1.mNormals = l.1.mNormals := by
  unfold MeshDispatch
  dsimp only
  by_cases h1 : MatchKw st.input "*MESH_NUMVERTEX".data 15 = true
  · rw [if_pos h1]; rfl
  rw [if_neg h1]
  by_cases h2 : MatchKw st.input "*MESH_NUMTVERTEX".data 16 = true
  · rw [if_pos h2]; rfl
  rw [if_neg h2]
  by_cases h3 : MatchKw st.input "*MESH_NUMCVERTEX".data 16 = true
  · rw [if_pos h3]; rfl
  rw [if_neg h3]
  by_cases h4 : MatchKw st.input "*MESH_NUMFACES".data 14 = true
  · rw [if_pos h4]; rfl
  rw [if_neg h4]
  by_cases h5 : MatchKw st.input "*MESH_NUMTVFACES".data 16 = true
  · rw [if_pos h5]; rfl
  rw [if_neg h5]
  by_cases h6 : MatchKw st.input "*MESH_NUMCVFACES".data 16 = true
  · rw [if_pos h6]; rfl
  rw [if_neg h6]
  by_cases h7 : MatchKw st.input "*MESH_VERTEX_LIST".data 17 = true
  · rw [if_pos h7]
    simp [PRes.val_mapA, ParseLV3MeshVertexListBlock_normals]
  rw [if_neg h7]
  by_cases h8 : MatchKw st.input "*MESH_FACE_LIST".data 15 = true
  · rw [if_pos h8]
    simp [PRes.val_mapA, ParseLV3MeshFaceListBlock_normals]
  rw [if_neg h8]
  by_cases h9 : MatchKw st.input "*MESH_TVERTLIST".data 15 = true
  · rw [if_pos h9]
    simp [PRes.val_mapA, ParseLV3MeshTListBlock_normals]
  rw [if_neg h9]
  by_cases h10 : MatchKw st.input "*MESH_TFACELIST".data 15 = true
  · rw [if_pos h10]
    simp [PRes.val_mapA, ParseLV3MeshTFaceListBlock_normals]
  rw [if_neg h10]
  by_cases h11 : MatchKw st.input "*MESH_CVERTLIST".data 15 = true
  · rw [if_pos h11]
    simp [PRes.val_mapA, ParseLV3MeshCListBlock_normals]
  rw [if_neg h11]
  by_cases h12 : MatchKw st.input "*MESH_CFACELIST".data 15 = true
  · rw [if_pos h12]
    simp [PRes.val_mapA, ParseLV3MeshCFaceListBlock_normals]
  rw [if_neg h12]
  by_cases h13 : MatchKw st.input "*MESH_MAPPINGCHANNEL".data 20 = true
  · rw [if_pos h13]
    simp [PRes.val_mapA, MeshMappingChannel_normals]
  rw [if_neg h13]
  by_cases h14 : MatchKw st.input "*MATERIAL_REF".data 13 = true
  · rw [if_pos h14]; rfl
  rw [if_neg h14]
  rfl

theorem ParseLV2MeshBlock_normals (fuel : Nat) (st : PState) (m : Mesh) :
    ((ParseLV2MeshBlock fuel st m).val).mNormals = m.mNormals := by
  have h := runBlock_val_pres MeshDispatch false
    (fun p : Mesh × MeshCounts => p.1.mNormals = m.mNormals)
    (fun f st2 l hl => by
      show ((MeshDispatch f st2 l).val).1.mNormals = m.mNormals
      rw [MeshDispatch_normals]; exact hl)
    fuel st (m, {}) 1 rfl
  simpa [ParseLV2MeshBlock, PRes.val_mapA] using h

theorem NodeTmDispatch_normals (f : Nat) (st : PState) (m : Mesh) :
    ((NodeTmDispatch f st m).val).mNormals = m.mNormals := by
  unfold NodeTmDispatch
  dsimp only
  repeat' split
  all_goals rfl

theorem ParseLV2NodeTransformBlock_normals (fuel : Nat) (st : PState) (m : Mesh) :
    ((ParseLV2NodeTransformBlock fuel st m).val).mNormals = m.mNormals := by
  have h := runBlock_val_pres NodeTmDispatch false
    (fun mm : Mesh => mm.mNormals = m.mNormals)
    (fun f st2 l hl => by
      show ((NodeTmDispatch f st2 l).val).mNormals = m.mNormals
      rw [NodeTmDispatch_normals]; exact hl)
    fuel st m 1 rfl
  simpa [ParseLV2NodeTransformBlock] using h

theorem GeomObjDispatch_normals (f : Nat) (st : PState) (m : Mesh) :
    ((GeomObjDispatch f st m).val).mNormals = m.mNormals := by
  unfold GeomObjDispatch
  dsimp only
  repeat' split
  all_goals first
    | rfl
    | simp [ParseLV2NodeTransformBlock_normals, ParseLV2MeshBlock_normals]

theorem ParseLV1GeometryObjectBlock_normals (fuel : Nat) (st : PState) (m : Mesh) :
    ((ParseLV1GeometryObjectBlock fuel st m).val).mNormals = m.mNormals := by
  have h := runBlock_val_pres GeomObjDispatch true
    (fun mm : Mesh => mm.mNormals = m.mNormals)
    (fun f st2 l hl => by
      show ((GeomObjDispatch f st2 l).val).mNormals = m.mNormals
      rw [GeomObjDispatch_normals]; exact hl)
    fuel st m 1 rfl
  simpa [ParseLV1GeometryObjectBlock] using h

theorem TopDispatch_normals (f : Nat) (st : PState) (sc : Scene)
    (h : sc.meshes.all (fun mm => mm.mNormals.isEmpty) = true) :
    ((TopDispatch f st sc).val).meshes.all (fun mm => mm.mNormals.isEmpty) = true := by
  unfold TopDispatch
  dsimp only
  repeat' split
  all_goals first
    | exact h
    | simpa [PRes.val_mapA] using h
    | (rw [PRes.val_mapA]
       simp only [List.all_append, List.all_cons, List.all_nil,
         ParseLV1GeometryObjectBlock_normals]
       simp [h])

theorem Parse_normals (fuel : Nat) (st : PState) (sc : Scene)
    (h : sc.meshes.all (fun mm => mm.mNormals.isEmpty) = true) :
    ((Parse fuel st sc).val).meshes.all (fun mm => mm.mNormals.isEmpty) = true := by
  have hp := runBlock_val_pres TopDispatch true
    (fun s : Scene => s.meshes.all (fun mm => mm.mNormals.isEmpty) = true)
    (fun f st2 l hl => TopDispatch_normals f st2 l hl)
    fuel st sc 1 h
  simpa [Parse] using hp

end ASE

namespace ASE

theorem NormalLoop_eof (fuel ln ws : Nat) (m : Mesh) (depth : Nat) :
    NormalLoop (fuel + 1) { input := [], line := ln, warns := ws } m depth =
      .err { input := [], line := ln, warns := ws } m := by
  have h1 : NULC ≠ '*' := by decide
  have h2 : NULC ≠ '{' := by decide
  have h3 : NULC ≠ '}' := by decide
  simp [NormalLoop, peekc, h1, h2, h3]

theorem resizeList_length (l : List α) (n : Nat) (d : α) : (resizeList l n d).length = n := by
  simp [resizeList]
  omega

theorem VertexListDispatch_posLen (n f : Nat) (st : PState) (m : Mesh) :
    ((VertexListDispatch n f st m).val).mPositions.length = m.mPositions.length := by
  unfold VertexListDispatch
  dsimp only
  repeat' split
  all_goals simp [PRes.val, List.length_set]

/-- C1: the source discards a `*MESH_MAPPINGCHANNEL` with index 0 or 1
only partially: because its `iIndex < 2` check is not chained to the
range check's `else`, the mapping-channel parser IS entered afterwards
with channel `index - 1`, and it can mutate the mesh's UV arrays.  First
conjunct: a mesh block whose mapping-channel keyword has index 1 ends
with UV channel 0 populated (the claim says the UV arrays are never
mutated and the parser not entered).  Second conjunct: an index 2 in the
supported range populates exactly channel 1 = N - 1, no other. -/
theorem claim_C1 :
    ((ParseLV2MeshBlock 300
      { input := "*MESH_MAPPINGCHANNEL 1 \x7b *X 1 \x7d *MESH_NUMTVERTEX 1 *PAD 0 *MESH_TVERTLIST \x7b *MESH_TVERT 0 0.5 0.5 0.0 *W \x7d \x7d".data,
        line := 0, warns := 0 } {}).val).amTexCoords =
      [[{ x := 1/2, y := 1/2, z := 0 }], [], [], []] ∧
    ((ParseLV2MeshBlock 300
      { input := "*MESH_MAPPINGCHANNEL 2 \x7b *MESH_NUMTVERTEX 1 *PAD 0 *MESH_TVERTLIST \x7b *MESH_TVERT 0 0.5 0.5 0.0 *W \x7d \x7d \x7d".data,
        line := 0, warns := 0 } {}).val).amTexCoords =
      [[], [{ x := 1/2, y := 1/2, z := 0 }], [], []] := by
  exact ⟨by decide, by decide⟩

/-- C2: the `*MESH_TFACE` / `*MESH_CFACE` entry keywords are compared with
`strncmp(..., 12)` although the literals have 11 characters, so the
comparison also matches the literal's NUL terminator: a well-formed entry
followed by a space NEVER matches (first two conjuncts, for every
suffix), and a UV-face-list (resp. color-face-list) block containing such
an entry leaves the face array untouched and logs nothing (last two
conjuncts), where the claim says the entry's triple is written into the
face's UV-index (resp. color-index) slots. -/
theorem claim_C2 :
    (∀ s : List Char, MatchKw ("*MESH_TFACE ".data ++ s) "*MESH_TFACE".data 12 = false) ∧
    (∀ s : List Char, MatchKw ("*MESH_CFACE ".data ++ s) "*MESH_CFACE".data 12 = false) ∧
    ParseLV3MeshTFaceListBlock 200 1
      { input := "*MESH_TFACE 0 1 2 3 \x7d".data, line := 0, warns := 0 } { mFaces := [{}] } 0 =
      .ok { input := [], line := 0, warns := 0 } { mFaces := [{}] } ∧
    ParseLV3MeshCFaceListBlock 200 1
      { input := "*MESH_CFACE 0 1 2 3 \x7d".data, line := 0, warns := 0 } { mFaces := [{}] } =
      .ok { input := [], line := 0, warns := 0 } { mFaces := [{}] } := by
  exact ⟨fun s => rfl, fun s => rfl, by decide, by decide⟩

/-- C3: an unterminated quoted `*BITMAP` path does NOT raise a fatal parse
error — the source's end-of-input guard compares the pointer to null, so
the quote scan overruns the buffer instead (first two conjuncts); a
terminated quoted path stores exactly the characters between the two
quotes (third conjunct concretely, fourth in general for
`FindClosingQuote`). -/
theorem claim_C3 :
    (ParseLV3MapBlock 200
      { input := "*BITMAP \"foo.bmp".data, line := 0, warns := 0 } {}).isOob = true ∧
    (ParseLV3MapBlock 200
      { input := "*BITMAP \"foo.bmp".data, line := 0, warns := 0 } {}).isErr = false ∧
    ParseLV3MapBlock 200
      { input := "*BITMAP \"foo.bmp\" \x7d".data, line := 0, warns := 0 } {} =
      .ok { input := [], line := 0, warns := 0 } { mMapName := "foo.bmp".data } ∧
    (∀ pre post : List Char, '"' ∉ pre →
      FindClosingQuote (pre ++ '"' :: post) = some (pre, '"' :: post)) := by
  refine ⟨by decide, by decide, by decide, ?_⟩
  intro pre post h
  induction pre with
  | nil => simp [FindClosingQuote]
  | cons c r ih =>
    simp only [List.mem_cons, not_or] at h
    simp [FindClosingQuote, Ne.symm h.1, List.cons_append, ih h.2]

/-- C4 counterexample: end of input inside an open scene block or an open
material-list block is NOT fatal — both parsers return normally
(`// END OF FILE ... why not?`), contradicting the claim as stated. -/
theorem claim_C4_counterexample :
    (ParseLV1SceneBlock 1 (eofState 0 0) ({}, {})).isOk = true ∧
    (ParseLV1SceneBlock 1 (eofState 0 0) ({}, {})).isErr = false ∧
    (ParseLV1MaterialListBlock 1 (eofState 0 0) []).isOk = true ∧
    (ParseLV1MaterialListBlock 1 (eofState 0 0) []).isErr = false := by
  exact ⟨rfl, rfl, rfl, rfl⟩

/-- C4 (amended): at end of input with a closing brace still outstanding,
the top-level driver and every level-1 block (scene, material-list,
geometry-object) return normally, while every block of level 2 or deeper
(material, texture-map, node-transform, mesh, and all the list,
mapping-channel and normal-list blocks) raises the fatal parse error. -/
theorem claim_C4 (fuel ln ws : Nat) (sc : Triple × Triple) (mats : List Material)
    (mat : Material) (tex : Texture) (m : Mesh) (scene : Scene) (n ch : Nat) :
    Parse (fuel + 1) (eofState ln ws) scene = .ok (eofState ln ws) scene ∧
    ParseLV1SceneBlock (fuel + 1) (eofState ln ws) sc = .ok (eofState ln ws) sc ∧
    ParseLV1MaterialListBlock (fuel + 1) (eofState ln ws) mats = .ok (eofState ln ws) mats ∧
    ParseLV1GeometryObjectBlock (fuel + 1) (eofState ln ws) m = .ok (eofState ln ws) m ∧
    ParseLV2MaterialBlock (fuel + 1) (eofState ln ws) mat = .err (eofState ln ws) mat ∧
    ParseLV3MapBlock (fuel + 1) (eofState ln ws) tex = .err (eofState ln ws) tex ∧
    ParseLV2NodeTransformBlock (fuel + 1) (eofState ln ws) m = .err (eofState ln ws) m ∧
    ParseLV2MeshBlock (fuel + 1) (eofState ln ws) m = .err (eofState ln ws) m ∧
    ParseLV3MeshVertexListBlock (fuel + 1) n (eofState ln ws) m =
      .err (eofState ln ws) { m with mPositions := resizeList m.mPositions n {} } ∧
    ParseLV3MeshFaceListBlock (fuel + 1) n (eofState ln ws) m =
      .err (eofState ln ws) { m with mFaces := resizeList m.mFaces n {} } ∧
    ParseLV3MeshTListBlock (fuel + 1) n (eofState ln ws) m ch =
      .err (eofState ln ws)
        { m with amTexCoords := m.amTexCoords.set ch (resizeList (m.amTexCoords.getD ch []) n {}) } ∧
    ParseLV3MeshTFaceListBlock (fuel + 1) n (eofState ln ws) m ch = .err (eofState ln ws) m ∧
    ParseLV3MeshCListBlock (fuel + 1) n (eofState ln ws) m =
      .err (eofState ln ws) { m with mVertexColors := resizeList m.mVertexColors n {} } ∧
    ParseLV3MeshCFaceListBlock (fuel + 1) n (eofState ln ws) m = .err (eofState ln ws) m ∧
    ParseLV3MappingChannel (fuel + 1) ch (eofState ln ws) m = .err (eofState ln ws) m ∧
    ParseLV3MeshNormalListBlock (fuel + 1) (eofState ln ws) m =
      .err (eofState ln ws) { m with mNormals := resizeList m.mNormals m.mPositions.length {} } := by
  refine ⟨?_, ?_, ?_, ?_, ?_, ?_, ?_, ?_, ?_, ?_, ?_, ?_, ?_, ?_, ?_, ?_⟩
  · simp [Parse, eofState, runBlock_eof]
  · simp [ParseLV1SceneBlock, eofState, runBlock_eof]
  · simp [ParseLV1MaterialListBlock, eofState, runBlock_eof, PRes.mapA]
  · simp [ParseLV1GeometryObjectBlock, eofState, runBlock_eof]
  · simp [ParseLV2MaterialBlock, eofState, runBlock_eof, PRes.mapA]
  · simp [ParseLV3MapBlock, eofState, runBlock_eof]
  · simp [ParseLV2NodeTransformBlock, eofState, runBlock_eof]
  · simp [ParseLV2MeshBlock, eofState, runBlock_eof, PRes.mapA]
  · simp [ParseLV3MeshVertexListBlock, eofState, runBlock_eof]
  · simp [ParseLV3MeshFaceListBlock, eofState, runBlock_eof]
  · simp [ParseLV3MeshTListBlock, eofState, runBlock_eof]
  · simp [ParseLV3MeshTFaceListBlock, eofState, runBlock_eof]
  · simp [ParseLV3MeshCListBlock, eofState, runBlock_eof]
  · simp [ParseLV3MeshCFaceListBlock, eofState, runBlock_eof]
  · simp [ParseLV3MappingChannel, eofState, runBlock_eof, PRes.mapA]
  · simp [ParseLV3MeshNormalListBlock, eofState, NormalLoop_eof]

/-- C5 counterexample: with a declared count of 0, the clamp `count - 1`
wraps in unsigned 32-bit arithmetic to 2^32 - 1, which is not within the
bounds of the (empty) pre-sized material array — the claim's "always
within the array's bounds, including when the declared count is 0" is
false. -/
theorem claim_C5_counterexample :
    materialClamp 0 0 = 4294967295 ∧ ¬ materialClamp 0 0 < 0 := by
  exact ⟨by decide, by decide⟩

/-- C5 (amended): the clamped `*MATERIAL` / `*SUBMATERIAL` index is within
the bounds of the pre-sized array whenever the declared count is at
least 1. -/
theorem claim_C5 (cnt idx : Nat) (h : 1 ≤ cnt) : materialClamp cnt idx < cnt := by
  unfold materialClamp
  split
  · omega
  · omega

/-- C5 witness: the amended bound at the concrete count 1, index 7. -/
theorem claim_C5_witness : materialClamp 1 7 < 1 := claim_C5 1 7 (by norm_num)

/-- C7: for every suffix of the input, the material block's
`*MATERIAL_TRANSPARENCY` handler stores 1 - t where t is the parsed
float, and the `*MATERIAL_SHINE` handler stores t * 15 (first two
conjuncts, at the dispatch level); concretely, a material block parsing
transparency 0.25 stores 3/4 and one parsing shininess 0.5 stores 15/2
(last two conjuncts, through the full block parser). -/
theorem claim_C7 :
    (∀ (s : List Char) (ln ws k : Nat) (mat : Material)
        (recur : PState → Material → PRes Material) (f : Nat),
      MatDispatch recur f
          { input := "*MATERIAL_TRANSPARENCY ".data ++ s, line := ln, warns := ws } (mat, k) =
        .ok (ParseLV4MeshFloat { input := s, line := ln, warns := ws }).1
          (mat.withCore (fun c =>
            { c with mTransparency :=
                1 - (ParseLV4MeshFloat { input := s, line := ln, warns := ws }).2 }), k)) ∧
    (∀ (s : List Char) (ln ws k : Nat) (mat : Material)
        (recur : PState → Material → PRes Material) (f : Nat),
      MatDispatch recur f
          { input := "*MATERIAL_SHINE ".data ++ s, line := ln, warns := ws } (mat, k) =
        .ok (ParseLV4MeshFloat { input := s, line := ln, warns := ws }).1
          (mat.withCore (fun c =>
            { c with mSpecularExponent :=
                (ParseLV4MeshFloat { input := s, line := ln, warns := ws }).2 * 15 }), k)) ∧
    (ParseLV2MaterialBlock 50
      { input := "*MATERIAL_TRANSPARENCY 0.25 \x7d".data, line := 0, warns := 0 }
      Material.default).val.core.mTransparency = 3/4 ∧
    (ParseLV2MaterialBlock 50
      { input := "*MATERIAL_SHINE 0.5 \x7d".data, line := 0, warns := 0 }
      Material.default).val.core.mSpecularExponent = 15/2 := by
  exact ⟨fun s ln ws k mat recur f => rfl, fun s ln ws k mat recur f => rfl, by decide, by decide⟩

/-- C6: for every vertex-list block, the position array has exactly the
declared length in every outcome of the parse (resized up front, never
resized again — first conjunct); a dispatched `*MESH_VERTEX` entry whose
index is out of range is dropped with exactly one warning, leaves its
slot at the default and the parse returns normally (second conjunct);
but an entry immediately following a handled entry is swallowed by the
loop's unconditional cursor increment and is dropped with NO warning
(third conjunct: the second, out-of-range entry causes no warning at
all). -/
theorem claim_C6 :
    (∀ (fuel n : Nat) (st : PState) (m : Mesh),
      ((ParseLV3MeshVertexListBlock fuel n st m).val).mPositions.length = n) ∧
    ParseLV3MeshVertexListBlock 200 2
      { input := "\x7b *MESH_VERTEX 5 1.0 2.0 3.0 *X 0\n\x7d \x7d".data, line := 0, warns := 0 } {} =
      .ok { input := [], line := 1, warns := 1 } { mPositions := [{}, {}] } ∧
    ParseLV3MeshVertexListBlock 200 2
      { input := "\x7b *MESH_VERTEX 0 1.0 2.0 3.0 *MESH_VERTEX 5 4.0 5.0 6.0 \x7d \x7d".data,
        line := 0, warns := 0 } {} =
      .ok { input := [], line := 0, warns := 0 } { mPositions := [⟨1, 2, 3⟩, {}] } := by
  refine ⟨?_, by decide, by decide⟩
  intro fuel n st m
  have h := runBlock_val_pres (VertexListDispatch n) false
    (fun mm : Mesh => mm.mPositions.length = n)
    (fun f st2 l hl => by
      show ((VertexListDispatch n f st2 l).val).mPositions.length = n
      rw [VertexListDispatch_posLen]; exact hl)
    fuel st { m with mPositions := resizeList m.mPositions n {} } 1
    (by simp [resizeList_length])
  simpa [ParseLV3MeshVertexListBlock] using h

/-- C8: parsing the standalone record
`3: A: 5 B: 7 C: 9 *MESH_SMOOTHING 1,3 *MESH_MTLID 2` yields face index
3, vertex indices [5, 7, 9], smoothing mask 0b1010 = 10 and material id
2; a record with the labels in a different order and case
(`3: c: 9 a: 5 B: 7 ...`) yields the same slots; an unrecognized label
character is fatal, both concretely (`D`) and in general: whenever the
label scan stops on a character outside the case-insensitive A/B/C set,
the reference parser raises the fatal error. -/
theorem claim_C8 :
    ParseLV4MeshFace
      { input := "3: A: 5 B: 7 C: 9 *MESH_SMOOTHING 1,3 *MESH_MTLID 2".data,
        line := 0, warns := 0 } =
      .ok { input := [], line := 0, warns := 0 }
        { iFace := 3, mIndices := [5, 7, 9], iSmoothGroup := 10, iMaterial := 2 } ∧
    ParseLV4MeshFace
      { input := "3: c: 9 a: 5 B: 7 *MESH_SMOOTHING 1,3 *MESH_MTLID 2".data,
        line := 0, warns := 0 } =
      .ok { input := [], line := 0, warns := 0 }
        { iFace := 3, mIndices := [5, 7, 9], iSmoothGroup := 10, iMaterial := 2 } ∧
    (ParseLV4MeshFace
      { input := "3: D: 5 B: 7 C: 9".data, line := 0, warns := 0 }).isFatalB = true ∧
    (∀ (c : Char) (st : PState) (f : Face) (tail : List Char),
      SkipSpaces st.input = (c :: tail, true) → labelSlot c = none →
        (ParseFaceRef st f).isFatalB = true) := by
  refine ⟨by decide, by decide, by decide, ?_⟩
  intro c st f tail hskip h
  unfold ParseFaceRef
  rw [hskip]
  dsimp only [peekc]
  rw [h]
  rfl

/-- C8 witness: the general unrecognized-label clause applied at the
concrete label `D`. -/
theorem claim_C8_witness :
    (ParseFaceRef { input := "D: 5".data, line := 0, warns := 0 } {}).isFatalB = true :=
  claim_C8.2.2.2 'D' { input := "D: 5".data, line := 0, warns := 0 } {} (": 5".data) rfl rfl

/-- C9: reordering two `*MESH_VERTEX` entry lines with distinct in-range
indices changes the resulting position array: the block loop's
unconditional cursor increment swallows the entry that immediately
follows a handled entry, so only the first of two consecutive entries
takes effect and the result depends on file order. -/
theorem claim_C9 :
    ParseLV3MeshVertexListBlock 200 2
      { input := "\x7b *MESH_VERTEX 0 1.0 2.0 3.0 *MESH_VERTEX 1 4.0 5.0 6.0 \x7d \x7d".data,
        line := 0, warns := 0 } {} =
      .ok { input := [], line := 0, warns := 0 } { mPositions := [⟨1, 2, 3⟩, {}] } ∧
    ParseLV3MeshVertexListBlock 200 2
      { input := "\x7b *MESH_VERTEX 1 4.0 5.0 6.0 *MESH_VERTEX 0 1.0 2.0 3.0 \x7d \x7d".data,
        line := 0, warns := 0 } {} =
      .ok { input := [], line := 0, warns := 0 } { mPositions := [{}, ⟨4, 5, 6⟩] } ∧
    ((ParseLV3MeshVertexListBlock 200 2
      { input := "\x7b *MESH_VERTEX 0 1.0 2.0 3.0 *MESH_VERTEX 1 4.0 5.0 6.0 \x7d \x7d".data,
        line := 0, warns := 0 } {}).val).mPositions ≠
    ((ParseLV3MeshVertexListBlock 200 2
      { input := "\x7b *MESH_VERTEX 1 4.0 5.0 6.0 *MESH_VERTEX 0 1.0 2.0 3.0 \x7d \x7d".data,
        line := 0, warns := 0 } {}).val).mPositions := by
  exact ⟨by decide, by decide, by decide⟩

/-- C10: no dispatcher of the parser ever invokes the normal-list parser
(`ParseLV3MeshNormalListBlock` has no caller), and no other handler
writes a mesh's vertex-normal array: after any whole-file parse, every
mesh of the resulting scene has an empty normal array, whatever the
input and however the parse ends. -/
theorem claim_C10 (fuel : Nat) (input : List Char) :
    ((ParseFile fuel input).val).meshes.all (fun mm => mm.mNormals.isEmpty) = true := by
  have h := Parse_normals fuel { input := input, line := 0, warns := 0 } {} rfl
  simpa [ParseFile] using h

end ASE
